import Mathlib

/-!
Shallow embedding of the authentication core of `telegram_bot.py`
(class `AuthenticatedBot` plus its module-level state).

Modelling choices, all taken from the source:
* a Telegram user id (`update.effective_user.id`) is an `Identity := Nat`;
* the module-level Python set `authenticated_users : Set[int]` is a
  `Finset Identity` (Python set semantics: idempotent add, membership,
  removal, `len`);
* the `ConversationHandler` step for an identity (no conversation /
  `USERNAME` / `PASSWORD`) is a `ConvState` stored per identity; a handler
  returning `ConversationHandler.END` puts the identity back to `idle`;
* `context.user_data['username']` is an `Option String` per identity
  (`none` when the key was never written); the source never deletes it;
* every handler is a pure function from the bot state and the caller's id
  to the new state paired with the list of texts sent by
  `update.message.reply_text` during that handler (the best-effort
  `update.message.delete()` in `receive_password` touches no modelled
  state and is dropped).
-/

abbrev Identity := Nat

/-- Conversation step of the login `ConversationHandler` for one identity:
`idle` means no active conversation, `awaitingUsername` is state
`USERNAME = 0`, `awaitingPassword` is state `PASSWORD = 1`. -/
inductive ConvState where
  | idle
  | awaitingUsername
  | awaitingPassword
deriving DecidableEq, Repr

/-- The module-level dict `VALID_CREDENTIALS` of `telegram_bot.py`. -/
def VALID_CREDENTIALS : List (String × String) :=
  [("admin", "admin123"), ("user1", "pass123"), ("demo", "demo123")]

/-- The credential check of `receive_password` line 107:
`username in VALID_CREDENTIALS and VALID_CREDENTIALS[username] == password`. -/
def verifyCredentials (username password : String) : Bool :=
  match VALID_CREDENTIALS.lookup username with
  | some secret => secret == password
  | none => false

/-- Same check when the username comes from `context.user_data.get('username')`,
which may be absent (`None`): `None in VALID_CREDENTIALS` is `False` in
Python, so the conjunction short-circuits to `False`. -/
def verifyCredentialsOpt : Option String → String → Bool
  | some u, p => verifyCredentials u p
  | none, _ => false

/-- Python `set.add` on the session set (line 108). -/
def grantSession (A : Finset Identity) (uid : Identity) : Finset Identity :=
  insert uid A

/-- Python `set.remove` on the session set (line 141); the source only calls
it under an `in` check, so the plain erase is the exact behaviour. -/
def revokeSession (A : Finset Identity) (uid : Identity) : Finset Identity :=
  A.erase uid

/-- Whole mutable state of the bot process. -/
structure BotState where
  authenticated_users : Finset Identity
  conv : Identity → ConvState
  user_data : Identity → Option String

/-- Cold-start state: empty session set, no conversations, empty user_data. -/
def initialState : BotState :=
  { authenticated_users := ∅, conv := fun _ => ConvState.idle,
    user_data := fun _ => none }

def setConv (s : BotState) (uid : Identity) (c : ConvState) : BotState :=
  { s with conv := fun j => if j = uid then c else s.conv j }

def setUserData (s : BotState) (uid : Identity) (u : String) : BotState :=
  { s with user_data := fun j => if j = uid then some u else s.user_data j }

def dropWhileWs : List Char → List Char
  | [] => []
  | c :: cs => if c.isWhitespace then dropWhileWs cs else c :: cs

/-- Python `str.strip()`: the incoming text with leading and trailing
whitespace removed. -/
def pyStrip (t : String) : String :=
  String.mk ((dropWhileWs (dropWhileWs t.data).reverse).reverse)

/- Message texts, verbatim from the source. -/

def startLoggedInMsg : String :=
  "🔓 You're already logged in!\n\nAvailable commands:\n/info - Get system information\n/stats - View statistics\n/users - List users\n/data - Get data summary\n/logout - Logout from bot"

def startWelcomeMsg : String :=
  "👋 Welcome to the Authenticated Bot!\n\n🔒 Please login to access commands.\nUse /login to authenticate."

def alreadyLoggedInMsg : String :=
  "You're already logged in! Use /logout to logout first."

def loginPromptMsg : String :=
  "🔐 Login Required\n\nPlease enter your username:\n(Send /cancel to abort)"

def loginSuccessMsg : String :=
  "✅ Login successful!\n\nYou now have access to all commands:\n\n📊 Information Commands:\n/info - Get system information\n/stats - View statistics\n/users - List users\n/data - Get data summary\n\n🔧 Other Commands:\n/help - Show this help message\n/logout - Logout from bot"

def invalidCredentialsMsg : String :=
  "❌ Invalid credentials!\n\nPlease try again with /login"

def cancelMsg : String := "Login cancelled."

def logoutSuccessMsg : String :=
  "👋 Logged out successfully!\nUse /login to login again."

def notLoggedInMsg : String := "You're not logged in."

def helpAuthedMsg : String :=
  "📚 Available Commands:\n\n📊 Information Commands:\n/info - Get system information\n/stats - View statistics\n/users - List users\n/data - Get data summary\n\n🔧 Other Commands:\n/help - Show this help message\n/logout - Logout from bot"

def helpUnauthedMsg : String :=
  "🔒 Authentication Required\n\nPlease /login first to access commands.\n\nAvailable after login:\n• System information\n• Statistics\n• User lists\n• Data summaries"

def authRequiredMsg : String :=
  "🔒 Authentication Required\n\nPlease /login first to access this command."

def pleaseLoginMsg : String := "🔒 Please /login first to use this bot."

/- Handlers of `AuthenticatedBot`, translated one-to-one. -/

/-- `AuthenticatedBot.start` (the `/start` command handler). -/
def start_command (s : BotState) (uid : Identity) : BotState × List String :=
  if uid ∈ s.authenticated_users then (s, [startLoggedInMsg])
  else (s, [startWelcomeMsg])

/-- `AuthenticatedBot.login_start` (entry point of the login conversation).
Returning `ConversationHandler.END` leaves no active conversation;
returning `USERNAME` puts the identity in the `awaitingUsername` step. -/
def login_start (s : BotState) (uid : Identity) : BotState × List String :=
  if uid ∈ s.authenticated_users then
    (setConv s uid ConvState.idle, [alreadyLoggedInMsg])
  else
    (setConv s uid ConvState.awaitingUsername, [loginPromptMsg])

/-- `AuthenticatedBot.receive_username`: stores the trimmed text in
`user_data['username']` and returns `PASSWORD`. -/
def receive_username (s : BotState) (uid : Identity) (text : String) :
    BotState × List String :=
  let username := pyStrip text
  (setConv (setUserData s uid username) uid ConvState.awaitingPassword,
   ["Username: " ++ username ++ "\n\nNow enter your password:"])

/-- `AuthenticatedBot.receive_password`: trims the text, reads the stored
candidate username (possibly absent), verifies, and on success adds the
caller to the session set; either way returns `ConversationHandler.END`.
The stored `user_data['username']` entry is not removed. -/
def receive_password (s : BotState) (uid : Identity) (text : String) :
    BotState × List String :=
  let password := pyStrip text
  let username := s.user_data uid
  if verifyCredentialsOpt username password then
    (setConv
      { s with authenticated_users := grantSession s.authenticated_users uid }
      uid ConvState.idle,
     [loginSuccessMsg])
  else
    (setConv s uid ConvState.idle, [invalidCredentialsMsg])

/-- `AuthenticatedBot.cancel_login` (the `/cancel` fallback). -/
def cancel_login (s : BotState) (uid : Identity) : BotState × List String :=
  (setConv s uid ConvState.idle, [cancelMsg])

/-- `AuthenticatedBot.logout`. -/
def logout (s : BotState) (uid : Identity) : BotState × List String :=
  if uid ∈ s.authenticated_users then
    ({ s with authenticated_users := revokeSession s.authenticated_users uid },
     [logoutSuccessMsg])
  else (s, [notLoggedInMsg])

/-- `AuthenticatedBot.help_command`. -/
def help_command (s : BotState) (uid : Identity) : BotState × List String :=
  if uid ∈ s.authenticated_users then (s, [helpAuthedMsg])
  else (s, [helpUnauthedMsg])

/-- The `require_auth` decorator: runs the wrapped operation only when the
caller is in the session set, otherwise replies with the denial text and
returns without calling it. -/
def require_auth (op : BotState → Identity → BotState × List String)
    (s : BotState) (uid : Identity) : BotState × List String :=
  if uid ∈ s.authenticated_users then op s uid
  else (s, [authRequiredMsg])

/-- Body of `info_command` (inside the decorator). -/
def info_body (s : BotState) (_uid : Identity) : BotState × List String :=
  (s, ["📊 System Information\n\n• Bot Status: Online\n• Version: 1.0.0\n• Active Users: "
        ++ toString s.authenticated_users.card
        ++ "\n• Database: Connected\n• Last Update: 2025-10-06"])

/-- Body of `stats_command` (inside the decorator). -/
def stats_body (s : BotState) (_uid : Identity) : BotState × List String :=
  (s, ["📈 Statistics\n\n• Total Requests: 1,234\n• Active Sessions: "
        ++ toString s.authenticated_users.card
        ++ "\n• Success Rate: 98.5%\n• Avg Response Time: 45ms\n• Uptime: 99.9%"])

/-- Body of `users_command` (inside the decorator); Python set iteration
order is unspecified, rendered here in ascending id order. -/
def users_body (s : BotState) (_uid : Identity) : BotState × List String :=
  let user_list := String.intercalate "\n"
    ((s.authenticated_users.sort (· ≤ ·)).map
      (fun uid => "• User ID: " ++ toString uid))
  (s, ["👥 Active Users (" ++ toString s.authenticated_users.card ++ ")\n\n"
        ++ (if user_list = "" then "No active users" else user_list)])

/-- Body of `data_command` (inside the decorator). -/
def data_body (s : BotState) (_uid : Identity) : BotState × List String :=
  (s, ["💾 Data Summary\n\n• Records: 5,678\n• Storage Used: 234 MB\n• Last Backup: 2h ago\n• Data Integrity: ✅ Good\n• Sync Status: ✅ Synced"])

/-- The decorated `info_command` as registered with the application. -/
def info_command : BotState → Identity → BotState × List String :=
  require_auth info_body

/-- The decorated `stats_command`. -/
def stats_command : BotState → Identity → BotState × List String :=
  require_auth stats_body

/-- The decorated `users_command`. -/
def users_command : BotState → Identity → BotState × List String :=
  require_auth users_body

/-- The decorated `data_command`. -/
def data_command : BotState → Identity → BotState × List String :=
  require_auth data_body

/-- `AuthenticatedBot.unauthorized_command` (fallback for free text). -/
def unauthorized_command (s : BotState) (uid : Identity) :
    BotState × List String :=
  if uid ∈ s.authenticated_users then (s, [])
  else (s, [pleaseLoginMsg])

/-- An inbound update from one identity: a recognised command or free
text (the bot registers no other handlers). -/
inductive Event where
  | startCmd
  | loginCmd
  | logoutCmd
  | helpCmd
  | cancelCmd
  | infoCmd
  | statsCmd
  | usersCmd
  | dataCmd
  | text (t : String)

/-- Routing of `main()`'s handler registrations, in python-telegram-bot
group-0 precedence: `/start` first; the login `ConversationHandler` fires
its entry point `/login` only when no conversation is active, routes free
text to the step handler of the current state, and handles `/cancel` only
as a fallback of an active conversation; then the plain command handlers;
free text outside a conversation falls through to
`unauthorized_command`. `/login` or `/cancel` that no handler claims is
dropped. -/
def dispatch (s : BotState) (uid : Identity) : Event → BotState × List String
  | Event.startCmd => start_command s uid
  | Event.loginCmd =>
      if s.conv uid = ConvState.idle then login_start s uid else (s, [])
  | Event.cancelCmd =>
      if s.conv uid = ConvState.idle then (s, []) else cancel_login s uid
  | Event.logoutCmd => logout s uid
  | Event.helpCmd => help_command s uid
  | Event.infoCmd => info_command s uid
  | Event.statsCmd => stats_command s uid
  | Event.usersCmd => users_command s uid
  | Event.dataCmd => data_command s uid
  | Event.text t =>
      match s.conv uid with
      | ConvState.awaitingUsername => receive_username s uid t
      | ConvState.awaitingPassword => receive_password s uid t
      | ConvState.idle => unauthorized_command s uid

/-- Run a sequence of (identity, event) updates, keeping only the state. -/
def runSeq (s : BotState) : List (Identity × Event) → BotState
  | [] => s
  | (uid, ev) :: rest => runSeq (dispatch s uid ev).1 rest

/-- Whether the character sequence `n` occurs contiguously in `h`
(the Python `n in h` substring test, used to state message properties). -/
def startsWithL : List Char → List Char → Bool
  | [], _ => true
  | _ :: _, [] => false
  | c :: cs, d :: ds => c == d && startsWithL cs ds

def containsSeq (n : List Char) : List Char → Bool
  | [] => startsWithL n []
  | d :: ds => startsWithL n (d :: ds) || containsSeq n ds

/-- Substring test on strings. -/
def strContains (hay needle : String) : Bool :=
  containsSeq needle.toList hay.toList

/- Helper lemmas shared by the claim theorems. -/

@[simp] theorem setConv_conv_self (s : BotState) (uid : Identity) (c : ConvState) :
    (setConv s uid c).conv uid = c := by
  simp [setConv]

@[simp] theorem setConv_auth (s : BotState) (uid : Identity) (c : ConvState) :
    (setConv s uid c).authenticated_users = s.authenticated_users := rfl

@[simp] theorem setConv_user_data (s : BotState) (uid : Identity) (c : ConvState) :
    (setConv s uid c).user_data = s.user_data := rfl

@[simp] theorem setUserData_auth (s : BotState) (uid : Identity) (u : String) :
    (setUserData s uid u).authenticated_users = s.authenticated_users := rfl

@[simp] theorem setUserData_conv (s : BotState) (uid : Identity) (u : String) :
    (setUserData s uid u).conv = s.conv := rfl

@[simp] theorem setUserData_self (s : BotState) (uid : Identity) (u : String) :
    (setUserData s uid u).user_data uid = some u := by
  simp [setUserData]

theorem pyStrip_admin : pyStrip "admin" = "admin" := by decide

theorem verify_some_admin_ok :
    verifyCredentialsOpt (some "admin") (pyStrip "admin123") = true := by decide

theorem verify_some_admin_wrong :
    verifyCredentialsOpt (some "admin") (pyStrip "wrong") = false := by decide

/-- State projections after `/login` followed by the username text `admin`,
for an unauthenticated identity with no active conversation. -/
theorem runSeq_login_username (s : BotState) (uid : Identity)
    (h1 : uid ∉ s.authenticated_users) (h2 : s.conv uid = ConvState.idle) :
    (runSeq s [(uid, Event.loginCmd),
        (uid, Event.text "admin")]).authenticated_users = s.authenticated_users
    ∧ (runSeq s [(uid, Event.loginCmd),
        (uid, Event.text "admin")]).conv uid = ConvState.awaitingPassword
    ∧ (runSeq s [(uid, Event.loginCmd),
        (uid, Event.text "admin")]).user_data uid = some "admin"
    ∧ (∀ k, k ≠ uid → (runSeq s [(uid, Event.loginCmd),
        (uid, Event.text "admin")]).conv k = s.conv k) := by
  have hs1 : (dispatch s uid Event.loginCmd).1 =
      setConv s uid ConvState.awaitingUsername := by
    simp [dispatch, h2, login_start, h1]
  have hs2 : (dispatch (setConv s uid ConvState.awaitingUsername) uid
      (Event.text "admin")).1 =
      setConv (setUserData (setConv s uid ConvState.awaitingUsername) uid "admin")
        uid ConvState.awaitingPassword := by
    simp [dispatch, receive_username, pyStrip_admin]
  have hfinal : runSeq s [(uid, Event.loginCmd), (uid, Event.text "admin")] =
      setConv (setUserData (setConv s uid ConvState.awaitingUsername) uid "admin")
        uid ConvState.awaitingPassword := by
    simp only [runSeq]
    rw [hs1, hs2]
  rw [hfinal]
  refine ⟨rfl, by simp, by simp [setUserData], ?_⟩
  intro k hk
  simp [setConv, hk]

/-- State projections after the full successful login sequence
`/login`, `admin`, `admin123`, for an unauthenticated identity with no
active conversation. -/
theorem runSeq_login_success (s : BotState) (uid : Identity)
    (h1 : uid ∉ s.authenticated_users) (h2 : s.conv uid = ConvState.idle) :
    (runSeq s [(uid, Event.loginCmd), (uid, Event.text "admin"),
        (uid, Event.text "admin123")]).authenticated_users =
      grantSession s.authenticated_users uid
    ∧ (runSeq s [(uid, Event.loginCmd), (uid, Event.text "admin"),
        (uid, Event.text "admin123")]).conv uid = ConvState.idle
    ∧ (∀ k, k ≠ uid → (runSeq s [(uid, Event.loginCmd), (uid, Event.text "admin"),
        (uid, Event.text "admin123")]).conv k = s.conv k) := by
  have hs1 : (dispatch s uid Event.loginCmd).1 =
      setConv s uid ConvState.awaitingUsername := by
    simp [dispatch, h2, login_start, h1]
  have hs2 : (dispatch (setConv s uid ConvState.awaitingUsername) uid
      (Event.text "admin")).1 =
      setConv (setUserData (setConv s uid ConvState.awaitingUsername) uid "admin")
        uid ConvState.awaitingPassword := by
    simp [dispatch, receive_username, pyStrip_admin]
  have hs3 : (dispatch (setConv (setUserData (setConv s uid ConvState.awaitingUsername)
      uid "admin") uid ConvState.awaitingPassword) uid (Event.text "admin123")).1 =
      setConv { setConv (setUserData (setConv s uid ConvState.awaitingUsername) uid "admin")
          uid ConvState.awaitingPassword with
        authenticated_users := grantSession s.authenticated_users uid }
        uid ConvState.idle := by
    simp [dispatch, receive_password, setUserData, verify_some_admin_ok]
  have hfinal : runSeq s [(uid, Event.loginCmd), (uid, Event.text "admin"),
      (uid, Event.text "admin123")] =
      setConv { setConv (setUserData (setConv s uid ConvState.awaitingUsername) uid "admin")
          uid ConvState.awaitingPassword with
        authenticated_users := grantSession s.authenticated_users uid }
        uid ConvState.idle := by
    simp only [runSeq]
    rw [hs1, hs2, hs3]
  rw [hfinal]
  refine ⟨rfl, by simp, ?_⟩
  intro k hk
  simp [setConv, hk]

/-- A state used as a concrete witness input: identity 1 holds a session,
no conversation is active, no scratch username is stored. -/
def someState : BotState :=
  { authenticated_users := {1}, conv := fun _ => ConvState.idle,
    user_data := fun _ => none }

/-- Claim C1: for every identity not in the session registry, the
`require_auth` guard returns only the authentication-required denial
message and the unchanged state, for every possible wrapped operation
(so the operation body is never invoked and no side effect occurs); in
particular each of the four guarded commands info, stats, users, data
behaves that way under dispatch. -/
theorem guard_denies_unauthenticated
    (op : BotState → Identity → BotState × List String)
    (s : BotState) (uid : Identity)
    (h : uid ∉ s.authenticated_users) :
    require_auth op s uid = (s, [authRequiredMsg])
    ∧ dispatch s uid Event.infoCmd = (s, [authRequiredMsg])
    ∧ dispatch s uid Event.statsCmd = (s, [authRequiredMsg])
    ∧ dispatch s uid Event.usersCmd = (s, [authRequiredMsg])
    ∧ dispatch s uid Event.dataCmd = (s, [authRequiredMsg]) := by
  refine ⟨?_, ?_, ?_, ?_, ?_⟩ <;>
    simp [require_auth, dispatch, info_command, stats_command,
      users_command, data_command, h]

/-- Witness for C1 at identity 1 in the cold-start state. -/
theorem guard_denies_unauthenticated_witness :
    (1 : Identity) ∉ initialState.authenticated_users
    ∧ require_auth info_body initialState 1 = (initialState, [authRequiredMsg]) :=
  ⟨by decide,
   (guard_denies_unauthenticated info_body initialState 1 (by decide)).1⟩

/-- Claim C4: `verifyCredentials u p` is true exactly when the pair
`(u, p)` is an entry of the credential table (known username whose stored
secret equals `p` exactly), and it is false (an ordinary result, the
function being total) for every username that is not a key. -/
theorem verify_iff_pair_in_table (u p : String) :
    (verifyCredentials u p = true ↔ (u, p) ∈ VALID_CREDENTIALS)
    ∧ (u ∉ VALID_CREDENTIALS.map Prod.fst → verifyCredentials u p = false) := by
  by_cases h1 : u = "admin"
  · subst h1
    refine ⟨?_, fun hk => absurd (by simp [VALID_CREDENTIALS]) hk⟩
    have h : verifyCredentials "admin" p = ("admin123" == p) := rfl
    rw [h, beq_iff_eq]
    simp [VALID_CREDENTIALS, eq_comm]
  by_cases h2 : u = "user1"
  · subst h2
    refine ⟨?_, fun hk => absurd (by simp [VALID_CREDENTIALS]) hk⟩
    have h : verifyCredentials "user1" p = ("pass123" == p) := rfl
    rw [h, beq_iff_eq]
    simp [VALID_CREDENTIALS, eq_comm]
  by_cases h3 : u = "demo"
  · subst h3
    refine ⟨?_, fun hk => absurd (by simp [VALID_CREDENTIALS]) hk⟩
    have h : verifyCredentials "demo" p = ("demo123" == p) := rfl
    rw [h, beq_iff_eq]
    simp [VALID_CREDENTIALS, eq_comm]
  · have hb1 : (u == "admin") = false := by simp [h1]
    have hb2 : (u == "user1") = false := by simp [h2]
    have hb3 : (u == "demo") = false := by simp [h3]
    have hv : verifyCredentials u p = false := by
      simp [verifyCredentials, VALID_CREDENTIALS, List.lookup, hb1, hb2, hb3]
    refine ⟨?_, fun _ => hv⟩
    rw [hv]
    simp [VALID_CREDENTIALS, h1, h2, h3]

/-- Witness for C4: the unknown username of the spec example. -/
theorem verify_iff_pair_in_table_witness :
    "nouser" ∉ VALID_CREDENTIALS.map Prod.fst
    ∧ verifyCredentials "nouser" "anything" = false :=
  ⟨by decide, (verify_iff_pair_in_table "nouser" "anything").2 (by decide)⟩

/-- Claim C5: after granting a session to an identity it is authenticated;
a logout then removes it, reporting the logged-out message; an immediate
second logout reports the not-logged-in message. -/
theorem session_lifecycle (s : BotState) (uid : Identity) :
    uid ∈ grantSession s.authenticated_users uid
    ∧ (logout { s with
        authenticated_users := grantSession s.authenticated_users uid } uid).2 =
      [logoutSuccessMsg]
    ∧ uid ∉ (logout { s with
        authenticated_users := grantSession s.authenticated_users uid }
        uid).1.authenticated_users
    ∧ (logout (logout { s with
        authenticated_users := grantSession s.authenticated_users uid } uid).1
        uid).2 = [notLoggedInMsg] := by
  have hin : uid ∈ grantSession s.authenticated_users uid :=
    Finset.mem_insert_self uid s.authenticated_users
  have hout : uid ∉ revokeSession (grantSession s.authenticated_users uid) uid :=
    Finset.not_mem_erase uid (grantSession s.authenticated_users uid)
  refine ⟨hin, ?_, ?_, ?_⟩ <;> simp [logout, hin, hout]

/-- Claim C6: granting a session is idempotent — a second grant to the
same identity leaves the registry, and hence its count, unchanged. -/
theorem grant_idempotent (A : Finset Identity) (uid : Identity) :
    grantSession (grantSession A uid) uid = grantSession A uid
    ∧ (grantSession (grantSession A uid) uid).card = (grantSession A uid).card := by
  refine ⟨?_, ?_⟩ <;> simp [grantSession, Finset.insert_idem]

/-- Claim C7: starting the login flow for an authenticated identity only
replies already-logged-in and terminates with no conversation and no
scratch state created; for an unauthenticated identity it moves that
identity to the awaiting-username step and prompts for the username,
touching neither the session registry nor the scratch storage. -/
theorem login_start_cases (s : BotState) (uid : Identity) :
    (uid ∈ s.authenticated_users →
      (login_start s uid).2 = [alreadyLoggedInMsg]
      ∧ (login_start s uid).1.conv uid = ConvState.idle
      ∧ (login_start s uid).1.authenticated_users = s.authenticated_users
      ∧ (login_start s uid).1.user_data = s.user_data)
    ∧ (uid ∉ s.authenticated_users →
      (login_start s uid).2 = [loginPromptMsg]
      ∧ (login_start s uid).1.conv uid = ConvState.awaitingUsername
      ∧ (login_start s uid).1.authenticated_users = s.authenticated_users
      ∧ (login_start s uid).1.user_data = s.user_data) := by
  constructor <;> intro h <;> simp [login_start, h]

/-- Witness for C7: both branches at concrete identities 1 (authenticated
in `someState`) and 2 (not authenticated there). -/
theorem login_start_cases_witness :
    ((1 : Identity) ∈ someState.authenticated_users
      ∧ (login_start someState 1).2 = [alreadyLoggedInMsg])
    ∧ ((2 : Identity) ∉ someState.authenticated_users
      ∧ (login_start someState 2).2 = [loginPromptMsg]) :=
  ⟨⟨by decide, ((login_start_cases someState 1).1 (by decide)).1⟩,
   ⟨by decide, ((login_start_cases someState 2).2 (by decide)).1⟩⟩

/-- Running a concatenated event list is running the two parts in turn. -/
theorem runSeq_append (s : BotState) (L1 L2 : List (Identity × Event)) :
    runSeq s (L1 ++ L2) = runSeq (runSeq s L1) L2 := by
  induction L1 generalizing s with
  | nil => rfl
  | cons a L ih =>
      cases a
      simp [runSeq, ih]

/-- Claim C2: from an unauthenticated identity with no active
conversation, the sequence `/login`, `admin`, `admin123` leaves the
identity authenticated with the conversation back to idle, and any
further free-text message (a stray username or password) is ignored:
the dispatcher returns the state unchanged with no reply. -/
theorem login_roundtrip_success (s : BotState) (uid : Identity) (t : String)
    (h1 : uid ∉ s.authenticated_users) (h2 : s.conv uid = ConvState.idle) :
    uid ∈ (runSeq s [(uid, Event.loginCmd), (uid, Event.text "admin"),
        (uid, Event.text "admin123")]).authenticated_users
    ∧ (runSeq s [(uid, Event.loginCmd), (uid, Event.text "admin"),
        (uid, Event.text "admin123")]).conv uid = ConvState.idle
    ∧ dispatch (runSeq s [(uid, Event.loginCmd), (uid, Event.text "admin"),
        (uid, Event.text "admin123")]) uid (Event.text t) =
      (runSeq s [(uid, Event.loginCmd), (uid, Event.text "admin"),
        (uid, Event.text "admin123")], []) := by
  obtain ⟨ha, hc, -⟩ := runSeq_login_success s uid h1 h2
  have hm : uid ∈ (runSeq s [(uid, Event.loginCmd), (uid, Event.text "admin"),
      (uid, Event.text "admin123")]).authenticated_users := by
    rw [ha]
    exact Finset.mem_insert_self _ _
  refine ⟨hm, hc, ?_⟩
  simp [dispatch, hc, unauthorized_command, hm]

/-- Witness for C2 from the cold-start state at identity 1. -/
theorem login_roundtrip_success_witness :
    ((1 : Identity) ∉ initialState.authenticated_users
      ∧ initialState.conv 1 = ConvState.idle)
    ∧ 1 ∈ (runSeq initialState [(1, Event.loginCmd), (1, Event.text "admin"),
        (1, Event.text "admin123")]).authenticated_users :=
  ⟨⟨by decide, rfl⟩,
   (login_roundtrip_success initialState 1 "x" (by decide) rfl).1⟩

/-- Claim C3: from an unauthenticated identity with no active
conversation, the sequence `/login`, `admin`, `wrong` produces exactly one
reply at the password step — the generic invalid-credentials message —
leaves the identity unauthenticated with the conversation back to idle,
and that message contains neither the word username nor the word
password. -/
theorem login_roundtrip_invalid (s : BotState) (uid : Identity)
    (h1 : uid ∉ s.authenticated_users) (h2 : s.conv uid = ConvState.idle) :
    (dispatch (runSeq s [(uid, Event.loginCmd), (uid, Event.text "admin")]) uid
        (Event.text "wrong")).2 = [invalidCredentialsMsg]
    ∧ uid ∉ (dispatch (runSeq s [(uid, Event.loginCmd), (uid, Event.text "admin")]) uid
        (Event.text "wrong")).1.authenticated_users
    ∧ (dispatch (runSeq s [(uid, Event.loginCmd), (uid, Event.text "admin")]) uid
        (Event.text "wrong")).1.conv uid = ConvState.idle
    ∧ strContains invalidCredentialsMsg "username" = false
    ∧ strContains invalidCredentialsMsg "password" = false := by
  obtain ⟨ha, hc, hu, -⟩ := runSeq_login_username s uid h1 h2
  have hd : dispatch (runSeq s [(uid, Event.loginCmd), (uid, Event.text "admin")]) uid
      (Event.text "wrong") =
      (setConv (runSeq s [(uid, Event.loginCmd), (uid, Event.text "admin")]) uid
        ConvState.idle, [invalidCredentialsMsg]) := by
    simp [dispatch, hc, receive_password, hu, verify_some_admin_wrong]
  rw [hd]
  refine ⟨rfl, ?_, by simp, by decide, by decide⟩
  simp [ha, h1]

/-- Witness for C3 from the cold-start state at identity 1. -/
theorem login_roundtrip_invalid_witness :
    ((1 : Identity) ∉ initialState.authenticated_users
      ∧ initialState.conv 1 = ConvState.idle)
    ∧ (dispatch (runSeq initialState [(1, Event.loginCmd), (1, Event.text "admin")]) 1
        (Event.text "wrong")).2 = [invalidCredentialsMsg] :=
  ⟨⟨by decide, rfl⟩,
   (login_roundtrip_invalid initialState 1 (by decide) rfl).1⟩

/-- Claim C8 counterexample: after the successful terminal outcome of the
login flow for identity 1 the conversation is back to idle, yet the
stored candidate username is still present in the per-identity scratch
storage — the source never deletes `user_data['username']` — so the claim
that no residual attempt data remains is false at this input. -/
theorem attempt_residue_counterexample :
    (runSeq initialState [(1, Event.loginCmd), (1, Event.text "admin"),
        (1, Event.text "admin123")]).conv 1 = ConvState.idle
    ∧ (runSeq initialState [(1, Event.loginCmd), (1, Event.text "admin"),
        (1, Event.text "admin123")]).user_data 1 = some "admin"
    ∧ (runSeq initialState [(1, Event.loginCmd), (1, Event.text "admin"),
        (1, Event.text "admin123")]).user_data 1 ≠ none := by
  decide

/-- Claim C8 (amended): at every terminal outcome — success or
invalid-credentials in the password step, or cancellation — the pending
step of the per-identity LoginAttempt is destroyed (the conversation
returns to idle), while the stored candidate username in the per-identity
scratch storage is left exactly as it was (it is not cleared). -/
theorem terminal_resets_step_only (s : BotState) (uid : Identity) (t : String) :
    (receive_password s uid t).1.conv uid = ConvState.idle
    ∧ (receive_password s uid t).1.user_data = s.user_data
    ∧ (cancel_login s uid).1.conv uid = ConvState.idle
    ∧ (cancel_login s uid).1.user_data = s.user_data := by
  cases hv : verifyCredentialsOpt (s.user_data uid) (pyStrip t) <;>
    simp [receive_password, cancel_login, hv]

/-- Claim C9: when no candidate username was ever stored for the
identity, the password step is still total: the credential check
short-circuits to false on the absent username, so the flow takes the
invalid-credentials branch, ends the conversation, and leaves the
session registry unchanged. -/
theorem password_step_total_without_username (s : BotState) (uid : Identity)
    (t : String) (h : s.user_data uid = none) :
    verifyCredentialsOpt (s.user_data uid) (pyStrip t) = false
    ∧ receive_password s uid t = (setConv s uid ConvState.idle, [invalidCredentialsMsg])
    ∧ (receive_password s uid t).1.authenticated_users = s.authenticated_users := by
  have hv : verifyCredentialsOpt (s.user_data uid) (pyStrip t) = false := by
    rw [h]
    rfl
  refine ⟨hv, ?_, ?_⟩ <;> simp [receive_password, hv]

/-- Witness for C9 at identity 1 in the cold-start state. -/
theorem password_step_total_without_username_witness :
    initialState.user_data 1 = none
    ∧ receive_password initialState 1 "anything" =
      (setConv initialState 1 ConvState.idle, [invalidCredentialsMsg]) :=
  ⟨rfl, (password_step_total_without_username initialState 1 "anything" rfl).2.1⟩

/-- Claim C10: sessions are keyed by identity — a password step or a
logout by one identity never changes the membership of a different
identity; a successful password step adds exactly the caller to the
registry; and two distinct identities that each complete the login flow
with the same valid credentials end up simultaneously authenticated. -/
theorem session_frame_per_identity (s : BotState) (uid j : Identity) (t : String)
    (hj : j ≠ uid) :
    (j ∈ (receive_password s uid t).1.authenticated_users ↔
      j ∈ s.authenticated_users)
    ∧ (j ∈ (logout s uid).1.authenticated_users ↔ j ∈ s.authenticated_users)
    ∧ (verifyCredentialsOpt (s.user_data uid) (pyStrip t) = true →
        (receive_password s uid t).1.authenticated_users =
          grantSession s.authenticated_users uid)
    ∧ (s.conv uid = ConvState.idle → s.conv j = ConvState.idle →
        uid ∉ s.authenticated_users → j ∉ s.authenticated_users →
        uid ∈ (runSeq s [(uid, Event.loginCmd), (uid, Event.text "admin"),
            (uid, Event.text "admin123"), (j, Event.loginCmd),
            (j, Event.text "admin"), (j, Event.text "admin123")]).authenticated_users
        ∧ j ∈ (runSeq s [(uid, Event.loginCmd), (uid, Event.text "admin"),
            (uid, Event.text "admin123"), (j, Event.loginCmd),
            (j, Event.text "admin"), (j, Event.text "admin123")]).authenticated_users) := by
  refine ⟨?_, ?_, ?_, ?_⟩
  · cases hv : verifyCredentialsOpt (s.user_data uid) (pyStrip t) <;>
      simp [receive_password, hv, grantSession, Finset.mem_insert, hj]
  · by_cases hm : uid ∈ s.authenticated_users <;>
      simp [logout, hm, revokeSession, Finset.mem_erase, hj]
  · intro hv
    simp [receive_password, hv]
  · intro hcu hcj hau haj
    rw [show [(uid, Event.loginCmd), (uid, Event.text "admin"),
        (uid, Event.text "admin123"), (j, Event.loginCmd),
        (j, Event.text "admin"), (j, Event.text "admin123")] =
      [(uid, Event.loginCmd), (uid, Event.text "admin"),
        (uid, Event.text "admin123")] ++ [(j, Event.loginCmd),
        (j, Event.text "admin"), (j, Event.text "admin123")] from rfl,
      runSeq_append]
    obtain ⟨ha1, -, hco⟩ := runSeq_login_success s uid hau hcu
    have haj1 : j ∉ (runSeq s [(uid, Event.loginCmd), (uid, Event.text "admin"),
        (uid, Event.text "admin123")]).authenticated_users := by
      rw [ha1]
      simp [grantSession, Finset.mem_insert, hj, haj]
    have hcj1 : (runSeq s [(uid, Event.loginCmd), (uid, Event.text "admin"),
        (uid, Event.text "admin123")]).conv j = ConvState.idle := by
      rw [hco j hj]
      exact hcj
    obtain ⟨ha2, -, -⟩ := runSeq_login_success _ j haj1 hcj1
    rw [ha2, ha1]
    refine ⟨?_, Finset.mem_insert_self _ _⟩
    exact Finset.mem_insert_of_mem (Finset.mem_insert_self _ _)

/-- Witness for C10: identities 1 and 2 both log in with the admin
credentials from the cold-start state and are both authenticated. -/
theorem session_frame_per_identity_witness :
    (2 : Identity) ≠ 1
    ∧ (1 ∈ (runSeq initialState [(1, Event.loginCmd), (1, Event.text "admin"),
        (1, Event.text "admin123"), (2, Event.loginCmd), (2, Event.text "admin"),
        (2, Event.text "admin123")]).authenticated_users
      ∧ 2 ∈ (runSeq initialState [(1, Event.loginCmd), (1, Event.text "admin"),
        (1, Event.text "admin123"), (2, Event.loginCmd), (2, Event.text "admin"),
        (2, Event.text "admin123")]).authenticated_users) :=
  ⟨by decide,
   (session_frame_per_identity initialState 1 2 "admin123" (by decide)).2.2.2
     rfl rfl (by decide) (by decide)⟩
